import Mathlib

/-!
Shallow embedding of `app.py` of the data-measurements-tool repository.

The file under verification is Streamlit orchestration glue.  Its observable
behaviour, for the purposes of the claims, consists of

* which `load_or_prepare_*` methods of the opaque statistics-cache object are
  invoked, in which order, and whether an exception raised by one of them is
  caught locally (a bare `try`/`except`) or propagates and aborts the loader;
* which UI widgets are rendered, which messages are shown, and which HTTP POST
  requests are issued by `display_or_compute_data_measures`;
* which files and directories the module itself creates on disk.

We model the statistics-cache object by an oracle saying, for each metric
method, whether its `load_or_prepare_*` call raises, together with the
`complete` flag and the result of `check_cache_dir()`.  The loader bodies are
embedded as lists of call steps (a step is either a bare call or a call wrapped
in `try`/`except`), mirroring the source line by line, and an interpreter
`runSteps` that produces the trace of calls actually made and whether the
function returned normally.
-/

namespace DMT

/-- The metric methods of `DatasetStatisticsCacheClass` invoked in `app.py`
(the names after the `load_or_prepare_` prefix of each method). -/
inductive Metric where
  | dataset
  | dset_peek
  | labels
  | text_lengths
  | text_duplicates
  | vocab
  | general_stats
  | embeddings
  | npmi
  | zipf
deriving DecidableEq, Fintype, Repr

/-- Model of the statistics-cache object (`dstats`): `raises m` says whether
the call `dstats.load_or_prepare_<m>()` raises an exception; `complete` models
`dstats.complete`; `cacheDirExists` models the value `dstats.check_cache_dir()`
returns. -/
structure DStats where
  raises : Metric → Bool
  complete : Bool
  cacheDirExists : Bool

/-- One call site of a `load_or_prepare_*` method in a loader body: `raw m` is
a bare call (an exception propagates), `guarded m` is a call wrapped in a
`try`/`except` that only logs (app.py catches with a bare `except:` and calls
`logs.warning`). -/
inductive Step where
  | raw (m : Metric)
  | guarded (m : Metric)
deriving DecidableEq, Repr

/-- The metric a step calls. -/
def Step.metric : Step → Metric
  | Step.raw m => m
  | Step.guarded m => m

/-- Run a sequence of call steps against the cache object `d`.  Returns the
list of metric methods actually invoked, in order, and `true` when the
sequence finished normally (`false` when a bare call raised and aborted the
rest). A guarded call is always invoked and never aborts: the `except:` branch
only logs. -/
def runSteps (d : DStats) : List Step → List Metric × Bool
  | [] => ([], true)
  | Step.raw m :: rest =>
    if d.raises m then
      ([m], false)
    else
      let r := runSteps d rest
      (m :: r.1, r.2)
  | Step.guarded m :: rest =>
    let r := runSteps d rest
    (m :: r.1, r.2)

/-- The body of `load_or_prepare` (app.py lines 111-131) as a step list:
`dataset`, `labels`, `text_lengths`, `text_duplicates`, `vocab`,
`general_stats`, then `embeddings` under `if show_embeddings:`, then `npmi`
inside `try`/`except` (the only guarded call), then `zipf`. -/
def load_or_prepare_steps (show_embeddings : Bool) : List Step :=
  [Step.raw Metric.dataset,
   Step.raw Metric.labels,
   Step.raw Metric.text_lengths,
   Step.raw Metric.text_duplicates,
   Step.raw Metric.vocab,
   Step.raw Metric.general_stats]
  ++ (if show_embeddings then [Step.raw Metric.embeddings] else [])
  ++ [Step.guarded Metric.npmi,
      Step.raw Metric.zipf]

/-- `load_or_prepare(ds_args, show_embeddings, use_cache)` (app.py lines
91-132).  First component: whether `CACHE_DIR` is a directory once the
`if not isdir(CACHE_DIR): mkdir(CACHE_DIR)` preamble (lines 102-106) has run,
i.e. the state in which the `DatasetStatisticsCacheClass` constructor and all
metric calls execute.  Second component: the trace of metric calls and whether
the function returned normally. -/
def load_or_prepare (cache_dir_isdir : Bool) (d : DStats) (show_embeddings : Bool) :
    Bool × List Metric × Bool :=
  let cache_dir_after := if !cache_dir_isdir then true else cache_dir_isdir
  let r := runSteps d (load_or_prepare_steps show_embeddings)
  (cache_dir_after, r.1, r.2)

/-- The metric-loading block of `load_or_prepare_widgets` (app.py lines
158-201): every call is wrapped in its own `try`/`except`, in source order:
`dataset`, `dset_peek`, `general_stats`, `labels`, `text_lengths`, then
`embeddings` under `if show_embeddings:`, then `text_duplicates`, `npmi`,
`zipf`. -/
def load_or_prepare_widgets_steps (show_embeddings : Bool) : List Step :=
  [Step.guarded Metric.dataset,
   Step.guarded Metric.dset_peek,
   Step.guarded Metric.general_stats,
   Step.guarded Metric.labels,
   Step.guarded Metric.text_lengths]
  ++ (if show_embeddings then [Step.guarded Metric.embeddings] else [])
  ++ [Step.guarded Metric.text_duplicates,
      Step.guarded Metric.npmi,
      Step.guarded Metric.zipf]

/-- `load_or_prepare_widgets(ds_args, show_embeddings, use_cache)` (app.py
lines 134-202).  The whole metric block is guarded by
`if cache_dir_exists:` where `cache_dir_exists = dstats.check_cache_dir()`;
the function returns `(dstats, cache_dir_exists)`.  We return the call trace
and normal-return flag in place of `dstats`, paired with
`cache_dir_exists`. -/
def load_or_prepare_widgets (d : DStats) (show_embeddings : Bool) :
    (List Metric × Bool) × Bool :=
  let cache_dir_exists := d.cacheDirExists
  if cache_dir_exists then
    (runSteps d (load_or_prepare_widgets_steps show_embeddings), cache_dir_exists)
  else
    (([], true), cache_dir_exists)

/-- The display widgets `show_column` renders through `st_utils`
(app.py lines 204-238), named after the called helper. -/
inductive Widget where
  | header
  | general_stats
  | label_distribution
  | text_lengths
  | text_duplicates
  | npmi
  | zipf
  | text_embeddings
deriving DecidableEq, Repr

/-- `show_column(dstats, ds_configs, show_embeddings, column_id)` (app.py
lines 204-238): renders the seven unconditional widgets in source order and
the text-embeddings expander only under `if show_embeddings:`. -/
def show_column (show_embeddings : Bool) : List Widget :=
  [Widget.header,
   Widget.general_stats,
   Widget.label_distribution,
   Widget.text_lengths,
   Widget.text_duplicates,
   Widget.npmi,
   Widget.zipf]
  ++ (if show_embeddings then [Widget.text_embeddings] else [])

/-- Messages `display_or_compute_data_measures` can show (app.py lines
240-273), named after their branch. -/
inductive Msg where
  | check_back_later
  | computing_metrics
  | problem_happened
  | invalid_email
deriving DecidableEq, Repr

/-- One HTTP POST issued by `requests.post(SERVER_URL, data = ...)`: the URL
and the payload dictionary, as an association list in Python insertion
order. -/
structure PostRec where
  url : String
  payload : List (String × String)
deriving DecidableEq, Repr

/-- Python dictionary insertion of one key: an existing key is updated in
place, a fresh key is appended. -/
def dictInsert (d : List (String × String)) (k v : String) : List (String × String) :=
  if d.any (fun p => p.1 == k) then
    d.map (fun p => if p.1 = k then (k, v) else p)
  else
    d ++ [(k, v)]

/-- Python `dict(d, **kwargs)`: start from `d` and insert every binding of
`kwargs` in order, later bindings overriding earlier ones. -/
def dictUpdate (d : List (String × String)) (kwargs : List (String × String)) :
    List (String × String) :=
  kwargs.foldl (fun acc p => dictInsert acc p.1 p.2) d

/-- The environment `display_or_compute_data_measures` interacts with:
`validate_email` models the `email_validator.validate_email` call, returning
the normalized email on success and `none` when it raises
`EmailNotValidError`; `email_entered` and `compute_pressed` are the values the
text-input and button widgets return; `response_text` is `result.text` of a
POST, were one issued; `server_url` is the configured `SERVER_URL`. -/
structure UIEnv where
  validate_email : String → Option String
  email_entered : String
  compute_pressed : Bool
  response_text : String
  server_url : String

/-- The observable output of one call to `display_or_compute_data_measures`:
the widgets rendered through `show_column`, the POST requests issued, the
messages shown, and whether the email/compute flow was entered (the email
text input and the compute button were rendered). -/
structure DisplayOut where
  widgets : List Widget
  posts : List PostRec
  messages : List Msg
  email_prompt_shown : Bool
deriving DecidableEq, Repr

/-- `display_or_compute_data_measures(cache_exists, dstats, show_embeddings,
dataset_args, ds_configs, column_id)` (app.py lines 240-273).  When the cache
exists: `show_column` if `dstats.complete`, else the check-back-later message.
Otherwise the email/compute flow: validate the entered email (rebinding it to
the normalized form on success); if valid and the button was pressed, POST
`dict({"email": email}, **dataset_args)` to `SERVER_URL` and report success
exactly when `result.text == "success"`; if invalid and the email is non-empty
or the button was pressed, show the invalid-email message. -/
def display_or_compute_data_measures (env : UIEnv) (cache_exists : Bool)
    (complete : Bool) (show_embeddings : Bool)
    (dataset_args : List (String × String)) : DisplayOut :=
  if cache_exists then
    if complete then
      ⟨show_column show_embeddings, [], [], false⟩
    else
      ⟨[], [], [Msg.check_back_later], false⟩
  else
    let email := env.email_entered
    let compute := env.compute_pressed
    match env.validate_email email with
    | some norm =>
      if compute then
        ⟨[], [⟨env.server_url, dictUpdate [("email", norm)] dataset_args⟩],
         [if env.response_text = "success" then Msg.computing_metrics
          else Msg.problem_happened],
         true⟩
      else
        ⟨[], [], [], true⟩
    | none =>
      if email ≠ "" ∨ compute then
        ⟨[], [], [Msg.invalid_email], true⟩
      else
        ⟨[], [], [], true⟩

/-- The filesystem-creating operations performed by `app.py` itself, apart
from whatever the `DatasetStatisticsCacheClass` collaborator writes inside its
cache directory. -/
inductive FsEffect where
  | mkdir_log_files
  | create_app_log
  | mkdir_cache_dir
  | collaborator_cache_write
deriving DecidableEq, Fintype, Repr

/-- Module-import-time filesystem effects (app.py lines 41-58): when the
module logger has no handlers yet, the directory `./log_files` is created
(`Path(./log_files).mkdir(exist_ok=True)`) and
`logging.FileHandler(./log_files/app.log)` creates the log file. -/
def module_init_fs_effects (logger_has_handlers : Bool) : List FsEffect :=
  if logger_has_handlers then []
  else [FsEffect.mkdir_log_files, FsEffect.create_app_log]

/-- The filesystem effect the body of `load_or_prepare` performs itself
(app.py lines 102-106): `mkdir(CACHE_DIR)` when `CACHE_DIR` is not already a
directory. -/
def load_or_prepare_own_fs_effects (cache_dir_isdir : Bool) : List FsEffect :=
  if !cache_dir_isdir then [FsEffect.mkdir_cache_dir] else []

/-- Whether a filesystem effect is a write into the cache collaborator's
on-disk directory (either by the collaborator, or this file creating that very
directory). -/
def is_cache_dir_write : FsEffect → Bool
  | FsEffect.collaborator_cache_write => true
  | FsEffect.mkdir_cache_dir => true
  | _ => false

/-- Whether a filesystem effect belongs to the import-time logging setup. -/
def is_log_setup_write : FsEffect → Bool
  | FsEffect.mkdir_log_files => true
  | FsEffect.create_app_log => true
  | _ => false

/-- The `load_or_prepare_*()` family named by the specification: dataset,
labels, text_lengths, text_duplicates, vocab, general_stats, embeddings,
npmi, zipf. -/
def spec_loader_family : List Metric :=
  [Metric.dataset,
   Metric.labels,
   Metric.text_lengths,
   Metric.text_duplicates,
   Metric.vocab,
   Metric.general_stats,
   Metric.embeddings,
   Metric.npmi,
   Metric.zipf]

/-- Every metric in the trace of a step run is the metric of one of the
steps. -/
theorem runSteps_trace_subset (d : DStats) :
    ∀ steps : List Step, ∀ m ∈ (runSteps d steps).1, m ∈ steps.map Step.metric := by
  intro steps
  induction steps with
  | nil =>
    intro m hm
    simp [runSteps] at hm
  | cons s rest ih =>
    intro m hm
    cases s with
    | raw m2 =>
      by_cases hr : d.raises m2 = true
      · simp [runSteps, hr] at hm
        simp [Step.metric, hm]
      · simp [runSteps, hr] at hm
        rcases hm with hm | hm
        · simp [Step.metric, hm]
        · simpa [Step.metric] using Or.inr (ih m hm)
    | guarded m2 =>
      simp [runSteps] at hm
      rcases hm with hm | hm
      · simp [Step.metric, hm]
      · simpa [Step.metric] using Or.inr (ih m hm)

/-- If no bare (unguarded) step of the list raises, the run invokes every
step's metric in order and returns normally; guarded steps never abort
regardless of whether they raise. -/
theorem runSteps_raw_ok (d : DStats) :
    ∀ steps : List Step, (∀ m, Step.raw m ∈ steps → d.raises m = false) →
      runSteps d steps = (steps.map Step.metric, true) := by
  intro steps
  induction steps with
  | nil =>
    intro _
    rfl
  | cons s rest ih =>
    intro h
    cases s with
    | raw m =>
      have hm : d.raises m = false := h m (List.mem_cons_self _ _)
      have hrest := ih (fun m2 hm2 => h m2 (List.mem_cons_of_mem _ hm2))
      simp [runSteps, hm, hrest, Step.metric]
    | guarded m =>
      have hrest := ih (fun m2 hm2 => h m2 (List.mem_cons_of_mem _ hm2))
      simp [runSteps, hrest, Step.metric]

/-- If a step run finished normally, every step's metric was invoked, in
order. -/
theorem runSteps_ok_full (d : DStats) :
    ∀ steps : List Step, (runSteps d steps).2 = true →
      (runSteps d steps).1 = steps.map Step.metric := by
  intro steps
  induction steps with
  | nil =>
    intro _
    rfl
  | cons s rest ih =>
    intro h
    cases s with
    | raw m =>
      by_cases hr : d.raises m = true
      · simp [runSteps, hr] at h
      · simp [runSteps, hr] at h ⊢
        exact ⟨rfl, ih h⟩
    | guarded m =>
      simp [runSteps] at h ⊢
      exact ⟨rfl, ih h⟩

/-- If some bare (unguarded) step of the list raises, the run does not finish
normally: the first raising bare step that is reached aborts it, and an
earlier raising bare step aborts it even sooner. -/
theorem runSteps_raw_raises_aborts (d : DStats) :
    ∀ steps : List Step, ∀ m : Metric, Step.raw m ∈ steps → d.raises m = true →
      (runSteps d steps).2 = false := by
  intro steps
  induction steps with
  | nil =>
    intro m hm _
    simp at hm
  | cons s rest ih =>
    intro m hm hr
    cases s with
    | raw m2 =>
      rcases List.mem_cons.mp hm with hEq | hmem
      · injection hEq with h3
        subst h3
        simp [runSteps, hr]
      · by_cases h2 : d.raises m2 = true
        · simp [runSteps, h2]
        · simp [runSteps, h2]
          exact ih m hmem hr
    | guarded m2 =>
      rcases List.mem_cons.mp hm with hEq | hmem
      · simp at hEq
      · simp [runSteps]
        exact ih m hmem hr

/-- Claim C10 (confirmed): on every call of `load_or_prepare`, if `CACHE_DIR`
is not an existing directory it is created first, so the
`DatasetStatisticsCacheClass` constructor and all subsequent metric calls run
with `CACHE_DIR` existing: the cache-directory state after the preamble is
`true` whatever it was before. -/
theorem cache_dir_ensured (cache_dir_isdir : Bool) (d : DStats) (se : Bool) :
    (load_or_prepare cache_dir_isdir d se).1 = true := by
  cases cache_dir_isdir <;> rfl

/-- Claim C8 (confirmed): when `check_cache_dir()` returns `false`,
`load_or_prepare_widgets` returns `(dstats, false)` having invoked no
`load_or_prepare_*` method at all (empty call trace, normal return). -/
theorem no_cache_dir_skips_loading (d : DStats) (se : Bool)
    (h : d.cacheDirExists = false) :
    load_or_prepare_widgets d se = (([], true), false) := by
  simp [load_or_prepare_widgets, h]

/-- Witness for C8 at a concrete cache object whose `check_cache_dir()` is
`false`. -/
theorem no_cache_dir_skips_loading_witness :
    load_or_prepare_widgets ⟨fun _ => false, false, false⟩ true = (([], true), false) :=
  no_cache_dir_skips_loading ⟨fun _ => false, false, false⟩ true rfl

/-- Claim C3 (confirmed): whenever `cache_exists` is `true`,
`display_or_compute_data_measures` issues no HTTP POST, whatever the
environment, completeness flag, embeddings flag and dataset arguments. -/
theorem no_post_when_cache_exists (env : UIEnv) (complete se : Bool)
    (args : List (String × String)) :
    (display_or_compute_data_measures env true complete se args).posts = [] := by
  cases complete <;> rfl

/-- Claim C4 (confirmed): with `cache_exists` true, if `dstats.complete` the
statistics column is shown via `show_column` (and nothing else happens), and
if not, only the check-back-later message is shown; in neither case is the
email/compute flow entered (no prompt, no POST). -/
theorem cache_branch_display (env : UIEnv) (se : Bool)
    (args : List (String × String)) :
    display_or_compute_data_measures env true true se args =
      ⟨show_column se, [], [], false⟩ ∧
    display_or_compute_data_measures env true false se args =
      ⟨[], [], [Msg.check_back_later], false⟩ :=
  ⟨rfl, rfl⟩

/-- Claim C2 (confirmed): in the no-cache branch, when the email validates to
`norm` and the compute button is pressed, exactly one POST is sent, to the
configured server URL, with payload the Python dictionary
`dict(\x7b"email": norm\x7d, **dataset_args)`; the success message is shown
iff the response body text equals `"success"` (anything else yields the
failure message). -/
theorem post_payload_and_success_report (env : UIEnv) (complete se : Bool)
    (args : List (String × String)) (norm : String)
    (hval : env.validate_email env.email_entered = some norm)
    (hc : env.compute_pressed = true) :
    (display_or_compute_data_measures env false complete se args).posts =
      [⟨env.server_url, dictUpdate [("email", norm)] args⟩] ∧
    ((display_or_compute_data_measures env false complete se args).messages =
      [Msg.computing_metrics] ↔ env.response_text = "success") ∧
    (env.response_text ≠ "success" →
      (display_or_compute_data_measures env false complete se args).messages =
        [Msg.problem_happened]) := by
  refine ⟨?_, ?_, ?_⟩
  · simp [display_or_compute_data_measures, hval, hc]
  · by_cases hr : env.response_text = "success"
    · simp [display_or_compute_data_measures, hval, hc, hr]
    · simp [display_or_compute_data_measures, hval, hc, hr]
  · intro hr
    simp [display_or_compute_data_measures, hval, hc, hr]

/-- Witness for C2 at concrete environments: valid email and button pressed,
once with the server answering "success" and once with it answering
"nope". -/
theorem post_payload_and_success_report_witness :
    (display_or_compute_data_measures
        ⟨fun s => if s = "a@b.co" then some "a@b.co" else none,
         "a@b.co", true, "success", "http://srv"⟩
        false false false [("dset_name", "c4")]).posts =
      [⟨"http://srv", dictUpdate [("email", "a@b.co")] [("dset_name", "c4")]⟩] ∧
    ((display_or_compute_data_measures
        ⟨fun s => if s = "a@b.co" then some "a@b.co" else none,
         "a@b.co", true, "success", "http://srv"⟩
        false false false [("dset_name", "c4")]).messages =
      [Msg.computing_metrics] ↔ "success" = "success") ∧
    (display_or_compute_data_measures
        ⟨fun s => if s = "a@b.co" then some "a@b.co" else none,
         "a@b.co", true, "nope", "http://srv"⟩
        false false false [("dset_name", "c4")]).messages =
      [Msg.problem_happened] :=
  ⟨(post_payload_and_success_report
      ⟨fun s => if s = "a@b.co" then some "a@b.co" else none,
       "a@b.co", true, "success", "http://srv"⟩
      false false [("dset_name", "c4")] "a@b.co" (by decide) rfl).1,
   (post_payload_and_success_report
      ⟨fun s => if s = "a@b.co" then some "a@b.co" else none,
       "a@b.co", true, "success", "http://srv"⟩
      false false [("dset_name", "c4")] "a@b.co" (by decide) rfl).2.1,
   (post_payload_and_success_report
      ⟨fun s => if s = "a@b.co" then some "a@b.co" else none,
       "a@b.co", true, "nope", "http://srv"⟩
      false false [("dset_name", "c4")] "a@b.co" (by decide) rfl).2.2 (by decide)⟩

/-- Claim C7 (confirmed): in the no-cache branch, a POST happens only when
`validate_email` accepted the entered email, and then the payload carries the
normalized form; when validation fails and the email is non-empty or the
button was pressed, the invalid-email message is shown and no POST is
made. -/
theorem email_validation_gates_post (env : UIEnv) (complete se : Bool)
    (args : List (String × String)) :
    ((display_or_compute_data_measures env false complete se args).posts ≠ [] →
      ∃ norm, env.validate_email env.email_entered = some norm ∧
        env.compute_pressed = true ∧
        (display_or_compute_data_measures env false complete se args).posts =
          [⟨env.server_url, dictUpdate [("email", norm)] args⟩]) ∧
    (env.validate_email env.email_entered = none →
      (display_or_compute_data_measures env false complete se args).posts = [] ∧
      ((env.email_entered ≠ "" ∨ env.compute_pressed = true) →
        (display_or_compute_data_measures env false complete se args).messages =
          [Msg.invalid_email])) := by
  constructor
  · intro hne
    cases hval : env.validate_email env.email_entered with
    | none =>
      exfalso
      apply hne
      by_cases he : env.email_entered ≠ "" ∨ env.compute_pressed = true
      · simp [display_or_compute_data_measures, hval, he]
      · simp [display_or_compute_data_measures, hval, he]
    | some norm =>
      by_cases hc : env.compute_pressed = true
      · refine ⟨norm, rfl, hc, ?_⟩
        simp [display_or_compute_data_measures, hval, hc]
      · exfalso
        apply hne
        simp [display_or_compute_data_measures, hval, hc]
  · intro hval
    constructor
    · by_cases he : env.email_entered ≠ "" ∨ env.compute_pressed = true
      · simp [display_or_compute_data_measures, hval, he]
      · simp [display_or_compute_data_measures, hval, he]
    · intro he
      simp [display_or_compute_data_measures, hval, he]

/-- Witness for C7 at a concrete environment whose validator rejects
everything while the compute button is pressed: no POST, invalid-email
message. -/
theorem email_validation_gates_post_witness :
    (display_or_compute_data_measures
        ⟨fun _ => none, "bad-address", true, "x", "http://srv"⟩
        false false false []).posts = [] ∧
    (display_or_compute_data_measures
        ⟨fun _ => none, "bad-address", true, "x", "http://srv"⟩
        false false false []).messages = [Msg.invalid_email] :=
  ⟨(email_validation_gates_post
      ⟨fun _ => none, "bad-address", true, "x", "http://srv"⟩
      false false [] |>.2 rfl).1,
   (email_validation_gates_post
      ⟨fun _ => none, "bad-address", true, "x", "http://srv"⟩
      false false [] |>.2 rfl).2 (Or.inr rfl)⟩

/-- Counterexample to claim C1 as stated: in `load_or_prepare`, when
`load_or_prepare_dataset` raises, the exception is not caught locally — the
loader aborts immediately, `load_or_prepare_labels` (and every later metric)
is never invoked and the loader does not return. -/
theorem dataset_failure_aborts_loader :
    (load_or_prepare true ⟨fun m => decide (m = Metric.dataset), true, true⟩ true).2 =
      ([Metric.dataset], false) ∧
    Metric.labels ∉
      (load_or_prepare true ⟨fun m => decide (m = Metric.dataset), true, true⟩ true).2.1 := by
  decide

/-- Claim C1 (amended): in `load_or_prepare_widgets` every metric call is
individually wrapped in `try`/`except`, so whatever subset of calls raises,
every metric of the block is invoked and the loader returns normally; in
`load_or_prepare` only the `npmi` call is so isolated — if no metric other
than `npmi` raises, all calls are made and the loader returns normally even
when `npmi` raises, whereas an exception raised by any metric of the body
other than `npmi` propagates: the loader does not return normally. -/
theorem failure_isolation_amended :
    (∀ (d : DStats) (se : Bool), d.cacheDirExists = true →
      (load_or_prepare_widgets d se).1 =
        ((load_or_prepare_widgets_steps se).map Step.metric, true)) ∧
    (∀ (fs : Bool) (d : DStats) (se : Bool),
      (∀ m, m ≠ Metric.npmi → d.raises m = false) →
      (load_or_prepare fs d se).2 =
        ((load_or_prepare_steps se).map Step.metric, true)) ∧
    (∀ (fs : Bool) (d : DStats) (se : Bool) (m : Metric),
      m ≠ Metric.npmi → m ∈ (load_or_prepare_steps se).map Step.metric →
      d.raises m = true →
      (load_or_prepare fs d se).2.2 = false) := by
  refine ⟨?_, ?_, ?_⟩
  · intro d se h
    have hnoraw : ∀ m : Metric, Step.raw m ∉ load_or_prepare_widgets_steps se := by
      cases se <;> decide
    have hr := runSteps_raw_ok d (load_or_prepare_widgets_steps se)
      (fun m hm => absurd hm (hnoraw m))
    simp [load_or_prepare_widgets, h, hr]
  · intro fs d se h
    have hraw : ∀ m, Step.raw m ∈ load_or_prepare_steps se → d.raises m = false := by
      intro m hm
      apply h
      intro hEq
      subst hEq
      revert hm
      cases se <;> decide
    have hr := runSteps_raw_ok d (load_or_prepare_steps se) hraw
    simp [load_or_prepare, hr]
  · intro fs d se m hnp hmem hr
    have hraw : Step.raw m ∈ load_or_prepare_steps se := by
      have hx : ∀ x : Metric, x ≠ Metric.npmi →
          x ∈ (load_or_prepare_steps se).map Step.metric →
          Step.raw x ∈ load_or_prepare_steps se := by
        cases se <;> decide
      exact hx m hnp hmem
    exact runSteps_raw_raises_aborts d (load_or_prepare_steps se) m hraw hr

/-- Witness for the amended C1: a cache object where every call raises still
yields the full widget-loader trace and a normal return; one where only
`npmi` raises yields the full `load_or_prepare` trace and a normal return;
and one where only `labels` raises makes `load_or_prepare` abort. -/
theorem failure_isolation_amended_witness :
    (load_or_prepare_widgets ⟨fun _ => true, false, true⟩ true).1 =
      ((load_or_prepare_widgets_steps true).map Step.metric, true) ∧
    (load_or_prepare true ⟨fun m => decide (m = Metric.npmi), false, true⟩ true).2 =
      ((load_or_prepare_steps true).map Step.metric, true) ∧
    (load_or_prepare true ⟨fun m => decide (m = Metric.labels), false, true⟩ true).2.2 =
      false :=
  ⟨failure_isolation_amended.1 ⟨fun _ => true, false, true⟩ true rfl,
   failure_isolation_amended.2.1 true ⟨fun m => decide (m = Metric.npmi), false, true⟩ true
     (by decide),
   failure_isolation_amended.2.2 true ⟨fun m => decide (m = Metric.labels), false, true⟩ true
     Metric.labels (by decide) (by decide) (by decide)⟩

/-- Counterexample to claim C5 as stated: `load_or_prepare_widgets` (cache
directory present, embeddings on) invokes `load_or_prepare_dset_peek`, which
is outside the family the spec names, and never invokes
`load_or_prepare_vocab`, which is inside it. -/
theorem widgets_call_set_differs :
    Metric.dset_peek ∈ (load_or_prepare_widgets ⟨fun _ => false, true, true⟩ true).1.1 ∧
    Metric.dset_peek ∉ spec_loader_family ∧
    Metric.vocab ∉ (load_or_prepare_widgets ⟨fun _ => false, true, true⟩ true).1.1 := by
  decide

/-- Claim C5 (amended): the metric methods invoked anywhere in the file are
the spec's family plus `dset_peek`: `load_or_prepare` only ever invokes family
members (all nine, when nothing raises and embeddings are on), while
`load_or_prepare_widgets` invokes only family members and `dset_peek`, and
with the cache directory present and embeddings on it invokes exactly the
family minus `vocab` plus `dset_peek`. -/
theorem metric_family_amended :
    (∀ (fs : Bool) (d : DStats) (se : Bool),
      ∀ m ∈ (load_or_prepare fs d se).2.1, m ∈ spec_loader_family) ∧
    (∀ (d : DStats) (se : Bool),
      ∀ m ∈ (load_or_prepare_widgets d se).1.1,
        m ∈ Metric.dset_peek :: spec_loader_family) ∧
    (load_or_prepare_widgets ⟨fun _ => false, true, true⟩ true).1.1 =
      [Metric.dataset, Metric.dset_peek, Metric.general_stats, Metric.labels,
       Metric.text_lengths, Metric.embeddings, Metric.text_duplicates,
       Metric.npmi, Metric.zipf] ∧
    (load_or_prepare true ⟨fun _ => false, true, true⟩ true).2.1 =
      spec_loader_family := by
  refine ⟨?_, ?_, by decide, by decide⟩
  · intro fs d se m hm
    have h1 : m ∈ (load_or_prepare_steps se).map Step.metric :=
      runSteps_trace_subset d (load_or_prepare_steps se) m hm
    have h2 : ∀ x ∈ (load_or_prepare_steps se).map Step.metric,
        x ∈ spec_loader_family := by
      cases se <;> decide
    exact h2 m h1
  · intro d se m hm
    by_cases h : d.cacheDirExists = true
    · have hm2 : m ∈ (runSteps d (load_or_prepare_widgets_steps se)).1 := by
        simpa [load_or_prepare_widgets, h] using hm
      have h1 := runSteps_trace_subset d (load_or_prepare_widgets_steps se) m hm2
      have h2 : ∀ x ∈ (load_or_prepare_widgets_steps se).map Step.metric,
          x ∈ Metric.dset_peek :: spec_loader_family := by
        cases se <;> decide
      exact h2 m h1
    · simp [load_or_prepare_widgets, h] at hm

/-- Witness for the amended C5: the concrete membership facts, obtained by
applying the bound parts at a concrete cache object. -/
theorem metric_family_amended_witness :
    Metric.dataset ∈ spec_loader_family ∧
    Metric.dset_peek ∈ Metric.dset_peek :: spec_loader_family :=
  ⟨metric_family_amended.1 true ⟨fun _ => false, true, true⟩ true Metric.dataset
     (by decide),
   metric_family_amended.2.1 ⟨fun _ => false, true, true⟩ true Metric.dset_peek
     (by decide)⟩

/-- Counterexample to claim C9 as stated: with `show_embeddings` true but the
cache directory missing, `load_or_prepare_widgets` never invokes
`load_or_prepare_embeddings` (its whole metric block is skipped), so the
stated iff fails. -/
theorem embeddings_skipped_without_cache_dir :
    Metric.embeddings ∉
      (load_or_prepare_widgets ⟨fun _ => false, true, false⟩ true).1.1 := by
  decide

/-- Claim C9 (amended): `load_or_prepare_embeddings` is never invoked when
`show_embeddings` is false; when it is true it is invoked by
`load_or_prepare` provided the loader was not aborted by an earlier
exception, and by `load_or_prepare_widgets` provided the cache directory
exists; the embeddings expander of `show_column` is rendered iff
`show_embeddings`. -/
theorem embeddings_gating_amended :
    (∀ (fs : Bool) (d : DStats),
      Metric.embeddings ∉ (load_or_prepare fs d false).2.1) ∧
    (∀ d : DStats,
      Metric.embeddings ∉ (load_or_prepare_widgets d false).1.1) ∧
    (∀ (fs : Bool) (d : DStats), (load_or_prepare fs d true).2.2 = true →
      Metric.embeddings ∈ (load_or_prepare fs d true).2.1) ∧
    (∀ d : DStats, d.cacheDirExists = true →
      Metric.embeddings ∈ (load_or_prepare_widgets d true).1.1) ∧
    (∀ se : Bool, Widget.text_embeddings ∈ show_column se ↔ se = true) := by
  refine ⟨?_, ?_, ?_, ?_, ?_⟩
  · intro fs d hm
    have h1 := runSteps_trace_subset d (load_or_prepare_steps false)
      Metric.embeddings hm
    exact absurd h1 (by decide)
  · intro d hm
    by_cases h : d.cacheDirExists = true
    · have hm2 : Metric.embeddings ∈ (runSteps d (load_or_prepare_widgets_steps false)).1 := by
        simpa [load_or_prepare_widgets, h] using hm
      have h1 := runSteps_trace_subset d (load_or_prepare_widgets_steps false)
        Metric.embeddings hm2
      exact absurd h1 (by decide)
    · simp [load_or_prepare_widgets, h] at hm
  · intro fs d hok
    have hfull := runSteps_ok_full d (load_or_prepare_steps true) hok
    show Metric.embeddings ∈ (runSteps d (load_or_prepare_steps true)).1
    rw [hfull]
    decide
  · intro d h
    have hnoraw : ∀ m : Metric, Step.raw m ∉ load_or_prepare_widgets_steps true := by
      decide
    have hr := runSteps_raw_ok d (load_or_prepare_widgets_steps true)
      (fun m hm => absurd hm (hnoraw m))
    have hfull : (load_or_prepare_widgets d true).1.1 =
        (load_or_prepare_widgets_steps true).map Step.metric := by
      simp [load_or_prepare_widgets, h, hr]
    rw [hfull]
    decide
  · intro se
    cases se <;> decide

/-- Witness for the amended C9: with the cache directory present, embeddings
are loaded by the widgets loader when `show_embeddings` is true. -/
theorem embeddings_gating_amended_witness :
    Metric.embeddings ∈ (load_or_prepare_widgets ⟨fun _ => false, true, true⟩ true).1.1 :=
  embeddings_gating_amended.2.2.2.1 ⟨fun _ => false, true, true⟩ rfl

/-- Counterexample to claim C6 as stated: at import time (logger not yet
configured) the module creates the `./log_files` directory, which is not a
write into the cache collaborator's on-disk directory. -/
theorem log_files_created_outside_cache :
    FsEffect.mkdir_log_files ∈ module_init_fs_effects false ∧
    is_cache_dir_write FsEffect.mkdir_log_files = false := by
  decide

/-- Claim C6 (amended): besides writes into the cache collaborator's
directory (including this file's own `mkdir(CACHE_DIR)` in
`load_or_prepare`), the only on-disk artifacts the file creates are the
logging setup's `./log_files` directory and `./log_files/app.log` file,
created at import time when the logger has no handlers; nothing is created
by that block when handlers already exist. -/
theorem fs_effects_amended :
    (∀ (h : Bool), ∀ e ∈ module_init_fs_effects h, is_log_setup_write e = true) ∧
    (∀ (b : Bool), ∀ e ∈ load_or_prepare_own_fs_effects b,
      e = FsEffect.mkdir_cache_dir ∧ is_cache_dir_write e = true) ∧
    module_init_fs_effects true = [] := by
  refine ⟨?_, ?_, rfl⟩
  · decide
  · decide

/-- Witness for the amended C6: the import-time directory creation is part of
the logging setup, and the loader's own effect is the cache-dir creation. -/
theorem fs_effects_amended_witness :
    is_log_setup_write FsEffect.mkdir_log_files = true ∧
    (FsEffect.mkdir_cache_dir = FsEffect.mkdir_cache_dir ∧
      is_cache_dir_write FsEffect.mkdir_cache_dir = true) :=
  ⟨fs_effects_amended.1 false FsEffect.mkdir_log_files (by decide),
   fs_effects_amended.2.1 false FsEffect.mkdir_cache_dir (by decide)⟩

end DMT
